import Mathlib

/-!
Face Access: the capture / verify workflow of `mobile-app/App.js`.

A shallow embedding of the React component `App` of `src/mobile-app/App.js`:
its state variables, the trigger handler `captureFrames`, the scan button that
calls it, the `useEffect` hook on `status`, and the two reset callbacks handed
to `setTimeout`.

`captureFrames` is an `async` function.  It is embedded as the ordered list of
effects it performs (state setter calls, awaited calls to the camera, the image
encoder and `fetch`, and `setTimeout` registrations), computed from the values
its closure captured at the render in which the button was pressed and from the
answers of the environment.  A small interpreter, `run`, commits the setter
calls one after the other to the component state, runs the `useEffect` hook when
`status` changes, and lets other event-loop tasks (timer callbacks, face
detector updates) run at every `await`.

Modelling choices:
* every setter call is committed before the next one runs, so the hook on
  `status` sees each change of `status`;
* a timer is recorded as its callback and its delay; the callbacks that come
  due during a session are arbitrary tasks of the event loop, and `stateAfter`
  runs the timers a session registered once their delay has elapsed;
* the calls on `Animated`, the permission screens and the styles are left out;
* `confidence` is a natural number, printed in decimal as the template literal
  of line 108 prints a whole number.
-/

namespace FaceAccess

/-! ## Data model -/

/-- The values of the state variable `status` (App.js line 25). -/
inductive Status where
  | idle
  | scanning
  | success
  | error
deriving DecidableEq, Repr

/-- The state of the component `App`: the `useState` variables of lines 24-29
and whether `cameraRef.current` is non-null (line 31). -/
structure AppState where
  isScanning : Bool
  status : Status
  message : String
  userName : String
  frames : List String
  faceDetected : Bool
  cameraRef : Bool
deriving DecidableEq, Repr

/-- The state of the first render: the initial values given to `useState`, and
`cameraRef.current` still `null`. -/
def initialState : AppState :=
  { isScanning := false, status := Status.idle, message := "", userName := "",
    frames := [], faceDetected := false, cameraRef := false }

/-- The `user` record of a verifier response; only `name` is read. -/
structure User where
  name : String
deriving DecidableEq, Repr

/-- A decoded verifier response (the value of `await response.json()`), with
boolean flags.  `user` is `none` when the property is missing or `null`.
`confidence` is a whole number, printed by the template literal in decimal. -/
structure VerifyResult where
  verified : Bool
  liveness : Bool
  confidence : Nat
  user : Option User
deriving DecidableEq, Repr

/-- What the transport gives for one request: `fetch` rejects, or it resolves
and `response.json()` rejects, or the body decodes. -/
inductive FetchOutcome where
  | rejected
  | undecodable
  | decoded (result : VerifyResult)
deriving DecidableEq, Repr

/-- The answers of the external collaborators during one session.
`takePictureAsync i` is the `uri` of the photo of the `i`-th loop round, `none`
when the call rejects (or `cameraRef.current` has gone); `manipulateAsync i uri`
is the `base64` payload of the resized image, `none` when the call rejects;
`fetch images` is the outcome of the request carrying `images`. -/
structure Env where
  takePictureAsync : Nat → Option String
  manipulateAsync : Nat → String → Option String
  fetch : List String → FetchOutcome

/-- The two callbacks handed to `setTimeout`: lines 51-55 and lines 125-128. -/
inductive TimerCallback where
  | successReset
  | failureReset
deriving DecidableEq, Repr

/-- One observable step of the component's code. -/
inductive Effect where
  | setIsScanning (b : Bool)
  | setStatus (st : Status)
  | setMessage (m : String)
  | setUserName (n : String)
  | setFrames (fs : List String)
  | takePictureAsync (i : Nat)
  | manipulateAsync (uri : String)
  | sleep (ms : Nat)
  | fetch (url : String) (images : List String)
  | responseJson
  | consoleError
  | setTimeout (cb : TimerCallback) (ms : Nat)
deriving DecidableEq, Repr

/-! ## The code of `App.js` -/

/-- Line 18. -/
def API_URL : String := "https://seu-servidor.easypanel.host"

/-- The URL of line 97. -/
def verifyUrl : String := API_URL ++ "/api/verify-liveness"

/-- The message of line 68. -/
def msgDetecting : String := "Detectando vivacidade..."

/-- The message of line 90, for loop index `i`. -/
def msgCapturing (i : Nat) : String := "Capturando... " ++ toString (i + 1) ++ "/5"

/-- The message of line 94. -/
def msgVerifying : String := "Verificando..."

/-- The message of line 108. -/
def msgGranted (name : String) (confidence : Nat) : String :=
  "✓ Acesso Liberado\n" ++ name ++ "\nConfiança: " ++ toString confidence ++ "%"

/-- The message of line 111. -/
def msgLivenessFailed : String :=
  "❌ Verificação de vivacidade falhou\nPor favor, mova levemente o rosto"

/-- The message of line 114. -/
def msgNotRecognized : String := "❌ Usuário não reconhecido"

/-- The message of line 118. -/
def msgConnection : String := "Erro de conexão com servidor"

/-- The loop of lines 75-92, `for (let i = 0; i < 5; i++)`, with `remaining`
rounds still to run from index `i` and `capturedFrames` so far.  Gives the
effects performed and the final `capturedFrames`, or `none` when an awaited call
rejected. -/
def captureLoop (env : Env) : Nat → Nat → List String → List Effect × Option (List String)
  | 0, _, capturedFrames => ([], some capturedFrames)
  | remaining + 1, i, capturedFrames =>
    match env.takePictureAsync i with
    | none => ([Effect.takePictureAsync i], none)
    | some uri =>
      match env.manipulateAsync i uri with
      | none => ([Effect.takePictureAsync i, Effect.manipulateAsync uri], none)
      | some base64 =>
        let rest := captureLoop env remaining (i + 1) (capturedFrames ++ [base64])
        ([Effect.takePictureAsync i, Effect.manipulateAsync uri,
          Effect.setMessage (msgCapturing i), Effect.sleep 300] ++ rest.1, rest.2)

/-- Lines 105-115: the branch on the decoded response.  The flag is `true` when
the branch threw: reading `result.user.name` with no `user` is a `TypeError`,
raised while the argument of `setUserName` is evaluated. -/
def classify (result : VerifyResult) : List Effect × Bool :=
  if result.verified && result.liveness then
    match result.user with
    | none => ([Effect.setStatus Status.success], true)
    | some user =>
      ([Effect.setStatus Status.success, Effect.setUserName user.name,
        Effect.setMessage (msgGranted user.name result.confidence)], false)
  else if !result.liveness then
    ([Effect.setStatus Status.error, Effect.setMessage msgLivenessFailed], false)
  else
    ([Effect.setStatus Status.error, Effect.setMessage msgNotRecognized], false)

/-- The `try` block, lines 73-115: its effects, and whether it threw. -/
def tryBlock (env : Env) : List Effect × Bool :=
  match captureLoop env 5 0 [] with
  | (loopTrace, none) => (loopTrace, true)
  | (loopTrace, some capturedFrames) =>
    let sent := loopTrace ++ [Effect.setMessage msgVerifying, Effect.fetch verifyUrl capturedFrames]
    match env.fetch capturedFrames with
    | FetchOutcome.rejected => (sent, true)
    | FetchOutcome.undecodable => (sent ++ [Effect.responseJson], true)
    | FetchOutcome.decoded result =>
      (sent ++ [Effect.responseJson] ++ (classify result).1, (classify result).2)

/-- The `catch` block, lines 116-120. -/
def catchBlock : List Effect :=
  [Effect.setStatus Status.error, Effect.setMessage msgConnection, Effect.consoleError]

/-- The handler `captureFrames`, lines 63-130.  `c` holds the values captured by
the closure at the render in which the handler was created; `status` at line 124
is that captured value. -/
def captureFrames (c : AppState) (env : Env) : List Effect :=
  if !c.cameraRef || c.isScanning then []
  else
    [Effect.setIsScanning true, Effect.setStatus Status.scanning,
      Effect.setMessage msgDetecting, Effect.setFrames []]
    ++ (tryBlock env).1
    ++ (if (tryBlock env).2 then catchBlock else [])
    ++ [Effect.setIsScanning false]
    ++ (if c.status ≠ Status.success then [Effect.setTimeout TimerCallback.failureReset 3000] else [])

/-- A press on the scan button, lines 216-224: `onPress={captureFrames}` with
`disabled={isScanning || !faceDetected}`; a disabled button does not call its
handler. -/
def pressScanButton (s : AppState) (env : Env) : List Effect :=
  if s.isScanning || !s.faceDetected then [] else captureFrames s env

/-- The hook of lines 48-57, `useEffect(..., [status])`, for the committed value
of `status`: the timers it registers, as callback and delay. -/
def statusEffect (status : Status) : List (TimerCallback × Nat) :=
  if status = Status.success then [(TimerCallback.successReset, 4000)] else []

/-- The bodies of the two timer callbacks: lines 52-54 and lines 126-127. -/
def callbackEffects : TimerCallback → List Effect
  | TimerCallback.successReset => [Effect.setStatus Status.idle, Effect.setUserName ""]
  | TimerCallback.failureReset => [Effect.setStatus Status.idle, Effect.setMessage ""]

/-- The handler of lines 59-61, given `faces.length`. -/
def handleFacesDetected (s : AppState) (facesLength : Nat) : AppState :=
  { s with faceDetected := decide (facesLength > 0) }

/-! ## Running the effects -/

/-- The state after one effect; only the setters change it. -/
def applyEffect (s : AppState) : Effect → AppState
  | Effect.setIsScanning b => { s with isScanning := b }
  | Effect.setStatus st => { s with status := st }
  | Effect.setMessage m => { s with message := m }
  | Effect.setUserName n => { s with userName := n }
  | Effect.setFrames fs => { s with frames := fs }
  | _ => s

/-- The state after a list of effects, in order. -/
def applyEffects (s : AppState) (es : List Effect) : AppState :=
  es.foldl applyEffect s

/-- Something else the event loop runs while `captureFrames` is suspended at an
`await`: a timer callback that comes due, or a report of the face detector. -/
inductive External where
  | timerFired (cb : TimerCallback)
  | facesDetected (facesLength : Nat)
deriving DecidableEq, Repr

/-- The state after one such task. -/
def applyExternal (s : AppState) : External → AppState
  | External.timerFired cb => applyEffects s (callbackEffects cb)
  | External.facesDetected n => handleFacesDetected s n

/-- The effects at which `captureFrames` is suspended. -/
def isAwait : Effect → Bool
  | Effect.takePictureAsync _ => true
  | Effect.manipulateAsync _ => true
  | Effect.sleep _ => true
  | Effect.fetch _ _ => true
  | Effect.responseJson => true
  | _ => false

/-- The component state together with the timers registered so far, each as
callback and delay. -/
structure World where
  app : AppState
  timers : List (TimerCallback × Nat)
deriving DecidableEq, Repr

/-- One effect committed: a setter updates the state; `setStatus` with a new
value makes the hook on `status` run; `setTimeout` registers its timer. -/
def commit (w : World) : Effect → World
  | Effect.setStatus st =>
    { app := { w.app with status := st },
      timers := w.timers ++ (if st ≠ w.app.status then statusEffect st else []) }
  | Effect.setTimeout cb ms => { w with timers := w.timers ++ [(cb, ms)] }
  | e => { w with app := applyEffect w.app e }

/-- The effects of a handler run from position `n` on: each is committed, and
after an awaited one the tasks `ext n` of the event loop run. -/
def run (ext : Nat → List External) : Nat → World → List Effect → World
  | _, w, [] => w
  | n, w, e :: es =>
    run ext (n + 1)
      (if isAwait e then { commit w e with app := (ext n).foldl applyExternal (commit w e).app }
       else commit w e) es

/-- No other task runs during the session. -/
def noEvents : Nat → List External := fun _ => []

/-- One call of `captureFrames` from state `s`, run to its end. -/
def session (ext : Nat → List External) (s : AppState) (env : Env) : World :=
  run ext 0 { app := s, timers := [] } (captureFrames s env)

/-- One press on the scan button from state `s`, run to its end. -/
def press (ext : Nat → List External) (s : AppState) (env : Env) : World :=
  run ext 0 { app := s, timers := [] } (pressScanButton s env)

/-- The state once `t` ms have passed since the handler ended in world `w`, with
no other event meanwhile: the callbacks of the timers whose delay has elapsed
have run, in the order in which they came due.  The timers of a session are all
registered after its last `await`, so their delays count from the same
instant. -/
def stateAfter (w : World) (t : Nat) : AppState :=
  ((w.timers.filter (fun p => decide (p.2 ≤ t))).insertionSort (fun a b => a.2 ≤ b.2)).foldl
    (fun s p => applyEffects s (callbackEffects p.1)) w.app

/-- The requests sent: URL and `images` of every `fetch` call, in order. -/
def fetchCalls : List Effect → List (String × List String)
  | [] => []
  | Effect.fetch url images :: es => (url, images) :: fetchCalls es
  | _ :: es => fetchCalls es

/-- The encoded payload of round `i`: the photo is taken, then resized. -/
def encodedFrame (env : Env) (i : Nat) : Option String :=
  (env.takePictureAsync i).bind (env.manipulateAsync i)

/-- Whether `sub` occurs in `msg` as a contiguous run of characters. -/
def containsText (msg sub : String) : Prop := sub.data <:+: msg.data

instance (msg sub : String) : Decidable (containsText msg sub) := by
  unfold containsText; infer_instance

/-! ## Sample environments -/

/-- A camera and encoder that always succeed: payload `"f0"`, `"f1"`, ... -/
def okEnv (out : FetchOutcome) : Env :=
  { takePictureAsync := fun i => some ("file://photo" ++ toString i),
    manipulateAsync := fun i _ => some ("f" ++ toString i),
    fetch := fun _ => out }

/-- The state of an idle screen with the camera mounted and a face in view. -/
def readyState : AppState :=
  { initialState with cameraRef := true, faceDetected := true }

/-- The response of the spec's example. -/
def anaResult : VerifyResult :=
  { verified := true, liveness := true, confidence := 92, user := some { name := "Ana" } }

/-- The payloads the sample camera and encoder produce. -/
def okFrames (i : Nat) : String := "f" ++ toString i

/-- A response that passes liveness and matches no user. -/
def notRecognizedResult : VerifyResult :=
  { verified := false, liveness := true, confidence := 0, user := none }

/-- A response with both flags set and no `user` record. -/
def noUserResult : VerifyResult :=
  { verified := true, liveness := true, confidence := 92, user := none }

/-- A camera whose call of round `k` rejects; the other rounds succeed. -/
def failingEnv (k : Nat) : Env :=
  { takePictureAsync := fun i => if i = k then none else some ("file://photo" ++ toString i),
    manipulateAsync := fun i _ => some ("f" ++ toString i),
    fetch := fun _ => FetchOutcome.decoded anaResult }

/-- An idle screen with the camera mounted and no face in view. -/
def noFaceState : AppState :=
  { initialState with cameraRef := true }

/-- The state left by a session from `readyState` that ended in success. -/
def afterSuccess : AppState :=
  (session noEvents readyState (okEnv (FetchOutcome.decoded anaResult))).app

/-- The state left by a session from `readyState` that ended in "not
recognized". -/
def afterFailure : AppState :=
  (session noEvents readyState (okEnv (FetchOutcome.decoded notRecognizedResult))).app

/-- The event loop of a second session during which the two timers left by the
first one come due, both while the first photo is being taken. -/
def oldTimersDue : Nat → List External :=
  fun n =>
    if n = 4 then
      [External.timerFired TimerCallback.failureReset,
        External.timerFired TimerCallback.successReset]
    else []

/-! ## Auxiliary definitions for the proofs -/

/-- The effects that touch neither the busy flag, `status`, `userName`,
`frames` nor the timers. -/
def isQuiet : Effect → Bool
  | Effect.setMessage _ => true
  | Effect.takePictureAsync _ => true
  | Effect.manipulateAsync _ => true
  | Effect.sleep _ => true
  | Effect.fetch _ _ => true
  | Effect.responseJson => true
  | Effect.consoleError => true
  | _ => false

/-- The effects of the capture loop. -/
def isLoopEffect : Effect → Bool
  | Effect.setMessage _ => true
  | Effect.takePictureAsync _ => true
  | Effect.manipulateAsync _ => true
  | Effect.sleep _ => true
  | _ => false

/-- The effects that write the busy flag. -/
def writesBusy : Effect → Bool
  | Effect.setIsScanning _ => true
  | _ => false

/-- What the code between two points may have done to the state `a`, giving `b`,
when it ran only quiet effects and tasks of the event loop. -/
def Undisturbed (a b : AppState) : Prop :=
  b.isScanning = a.isScanning ∧ b.frames = a.frames ∧ b.cameraRef = a.cameraRef ∧
  (b.status = a.status ∨ b.status = Status.idle) ∧
  (b.userName = a.userName ∨ b.userName = "")

/-- The `setTimeout` of lines 124-129, as effects. -/
def resetPart (c : AppState) : List Effect :=
  if c.status ≠ Status.success then [Effect.setTimeout TimerCallback.failureReset 3000] else []

/-- The timer that lines 124-129 register, as callback and delay. -/
def resetTimers (c : AppState) : List (TimerCallback × Nat) :=
  if c.status ≠ Status.success then [(TimerCallback.failureReset, 3000)] else []

/-- The state after lines 66-69. -/
def started (s : AppState) : AppState :=
  { s with isScanning := true, status := Status.scanning, message := msgDetecting, frames := [] }

/-! ## Lemmas on the interpreter -/

theorem Undisturbed.refl (a : AppState) : Undisturbed a a :=
  ⟨rfl, rfl, rfl, Or.inl rfl, Or.inl rfl⟩

theorem Undisturbed.trans {a b c : AppState} (h1 : Undisturbed a b) (h2 : Undisturbed b c) :
    Undisturbed a c := by
  obtain ⟨h11, h12, h13, h14, h15⟩ := h1
  obtain ⟨h21, h22, h23, h24, h25⟩ := h2
  refine ⟨h21.trans h11, h22.trans h12, h23.trans h13, ?_, ?_⟩
  · rcases h24 with h | h
    · rcases h14 with h' | h'
      · exact Or.inl (h.trans h')
      · exact Or.inr (h.trans h')
    · exact Or.inr h
  · rcases h25 with h | h
    · rcases h15 with h' | h'
      · exact Or.inl (h.trans h')
      · exact Or.inr (h.trans h')
    · exact Or.inr h

theorem undisturbed_applyExternal (a : AppState) (x : External) :
    Undisturbed a (applyExternal a x) := by
  cases x with
  | timerFired cb =>
    cases cb <;>
      simp [Undisturbed, applyExternal, applyEffects, callbackEffects, applyEffect]
  | facesDetected n =>
    simp [Undisturbed, applyExternal, handleFacesDetected]

theorem undisturbed_externals (xs : List External) (a : AppState) :
    Undisturbed a (xs.foldl applyExternal a) := by
  induction xs generalizing a with
  | nil => exact Undisturbed.refl a
  | cons x xs ih =>
    exact (undisturbed_applyExternal a x).trans (ih (applyExternal a x))

theorem run_append (ext : Nat → List External) (es fs : List Effect) (n : Nat) (w : World) :
    run ext n w (es ++ fs) = run ext (n + es.length) (run ext n w es) fs := by
  induction es generalizing n w with
  | nil => simp [run]
  | cons e es ih =>
    simp only [List.cons_append, run, List.length_cons, List.append_eq]
    rw [ih]
    congr 1
    omega

theorem run_quiet (ext : Nat → List External) (es : List Effect)
    (hq : ∀ e ∈ es, isQuiet e = true) (n : Nat) (w : World) :
    (run ext n w es).timers = w.timers ∧ Undisturbed w.app (run ext n w es).app := by
  induction es generalizing n w with
  | nil => exact ⟨rfl, Undisturbed.refl _⟩
  | cons e es ih =>
    have he : isQuiet e = true := hq e (List.mem_cons_self _ _)
    have hes : ∀ e' ∈ es, isQuiet e' = true := fun e' h => hq e' (List.mem_cons_of_mem _ h)
    have hc : (commit w e).timers = w.timers ∧ Undisturbed w.app (commit w e).app := by
      cases e <;> simp [isQuiet] at he <;> simp [commit, applyEffect, Undisturbed]
    simp only [run]
    split
    · obtain ⟨h1, h2⟩ := ih hes (n + 1)
        { commit w e with app := (ext n).foldl applyExternal (commit w e).app }
      refine ⟨h1.trans hc.1, ?_⟩
      exact (hc.2.trans (undisturbed_externals _ _)).trans h2
    · obtain ⟨h1, h2⟩ := ih hes (n + 1) (commit w e)
      exact ⟨h1.trans hc.1, hc.2.trans h2⟩

theorem run_noEvents_userName (es : List Effect)
    (hq : ∀ e ∈ es, isQuiet e = true) (n : Nat) (w : World) :
    (run noEvents n w es).app.userName = w.app.userName := by
  induction es generalizing n w with
  | nil => rfl
  | cons e es ih =>
    have he : isQuiet e = true := hq e (List.mem_cons_self _ _)
    have hes : ∀ e' ∈ es, isQuiet e' = true := fun e' h => hq e' (List.mem_cons_of_mem _ h)
    have hc : (commit w e).app.userName = w.app.userName := by
      cases e <;> simp [isQuiet] at he <;> simp [commit, applyEffect]
    simp only [run]
    split
    · rw [ih hes]
      simpa [noEvents] using hc
    · rw [ih hes]
      exact hc

/-! ## Lemmas on the capture loop -/

theorem isQuiet_of_isLoopEffect (e : Effect) (h : isLoopEffect e = true) : isQuiet e = true := by
  cases e <;> simp [isLoopEffect] at h <;> simp [isQuiet]

theorem captureLoop_trace (env : Env) (r i : Nat) (acc : List String) :
    ∀ e ∈ (captureLoop env r i acc).1, isLoopEffect e = true := by
  induction r generalizing i acc with
  | zero => simp [captureLoop]
  | succ r ih =>
    intro e he
    simp only [captureLoop] at he
    split at he
    · simp at he; subst he; rfl
    · split at he
      · simp at he
        rcases he with he | he <;> subst he <;> rfl
      · simp only [List.cons_append, List.nil_append, List.mem_cons] at he
        rcases he with he | he | he | he | he
        · subst he; rfl
        · subst he; rfl
        · subst he; rfl
        · subst he; rfl
        · exact ih _ _ e he

theorem fetchCalls_append (es fs : List Effect) :
    fetchCalls (es ++ fs) = fetchCalls es ++ fetchCalls fs := by
  induction es with
  | nil => rfl
  | cons e es ih => cases e <;> simp [fetchCalls, ih]

theorem fetchCalls_loop (es : List Effect) (h : ∀ e ∈ es, isLoopEffect e = true) :
    fetchCalls es = [] := by
  induction es with
  | nil => rfl
  | cons e es ih =>
    have he := h e (List.mem_cons_self _ _)
    have hes : ∀ e' ∈ es, isLoopEffect e' = true := fun e' h' => h e' (List.mem_cons_of_mem _ h')
    cases e <;> simp [isLoopEffect] at he <;> simp [fetchCalls, ih hes]

theorem captureLoop_ok (env : Env) (fs : Nat → String) (r i : Nat) (acc : List String)
    (h : ∀ j, j < r → encodedFrame env (i + j) = some (fs (i + j))) :
    (captureLoop env r i acc).2 = some (acc ++ (List.range' i r).map fs) := by
  induction r generalizing i acc with
  | zero => simp [captureLoop]
  | succ r ih =>
    have h0 := h 0 (Nat.succ_pos r)
    simp only [Nat.add_zero, encodedFrame] at h0
    simp only [captureLoop]
    cases ht : env.takePictureAsync i with
    | none => simp [ht] at h0
    | some uri =>
      simp only [ht, Option.some_bind] at h0
      simp only [h0]
      rw [ih (i + 1) (acc ++ [fs i])]
      · simp [List.range'_succ]
      · intro j hj
        have := h (j + 1) (by omega)
        simpa [Nat.add_assoc, Nat.add_comm 1 j] using this

theorem captureLoop_fail (env : Env) (fs : Nat → String) (r i k : Nat) (acc : List String)
    (hk : k < r)
    (hok : ∀ j, j < k → encodedFrame env (i + j) = some (fs (i + j)))
    (hfail : encodedFrame env (i + k) = none) :
    (captureLoop env r i acc).2 = none := by
  induction r generalizing i k acc with
  | zero => omega
  | succ r ih =>
    simp only [captureLoop]
    cases k with
    | zero =>
      simp only [Nat.add_zero, encodedFrame] at hfail
      cases ht : env.takePictureAsync i with
      | none => rfl
      | some uri =>
        simp only [ht, Option.some_bind] at hfail
        simp [hfail]
    | succ k =>
      have h0 := hok 0 (Nat.succ_pos k)
      simp only [Nat.add_zero, encodedFrame] at h0
      cases ht : env.takePictureAsync i with
      | none => simp [ht] at h0
      | some uri =>
        simp only [ht, Option.some_bind] at h0
        simp only [h0]
        apply ih (i + 1) k
        · omega
        · intro j hj
          have := hok (j + 1) (by omega)
          simpa [Nat.add_assoc, Nat.add_comm 1 j] using this
        · simpa [Nat.add_assoc, Nat.add_comm 1 k] using hfail

/-! ## Lemmas on `captureFrames` -/

theorem captureFrames_eq (c : AppState) (env : Env)
    (hcam : c.cameraRef = true) (hidle : c.isScanning = false) :
    captureFrames c env =
      [Effect.setIsScanning true, Effect.setStatus Status.scanning,
        Effect.setMessage msgDetecting, Effect.setFrames []]
      ++ (tryBlock env).1
      ++ (if (tryBlock env).2 then catchBlock else [])
      ++ [Effect.setIsScanning false]
      ++ resetPart c := by
  simp [captureFrames, hcam, hidle, resetPart]

theorem tryBlock_fail (env : Env) (h : (captureLoop env 5 0 []).2 = none) :
    tryBlock env = ((captureLoop env 5 0 []).1, true) := by
  unfold tryBlock
  rcases hl : captureLoop env 5 0 [] with ⟨l, res⟩
  rw [hl] at h
  simp only at h
  subst h
  rfl

theorem tryBlock_ok (env : Env) (imgs : List String)
    (h : (captureLoop env 5 0 []).2 = some imgs) :
    tryBlock env =
      match env.fetch imgs with
      | FetchOutcome.rejected =>
        ((captureLoop env 5 0 []).1
          ++ [Effect.setMessage msgVerifying, Effect.fetch verifyUrl imgs], true)
      | FetchOutcome.undecodable =>
        ((captureLoop env 5 0 []).1
          ++ [Effect.setMessage msgVerifying, Effect.fetch verifyUrl imgs, Effect.responseJson],
          true)
      | FetchOutcome.decoded result =>
        ((captureLoop env 5 0 []).1
          ++ [Effect.setMessage msgVerifying, Effect.fetch verifyUrl imgs, Effect.responseJson]
          ++ (classify result).1, (classify result).2) := by
  unfold tryBlock
  rcases hl : captureLoop env 5 0 [] with ⟨l, res⟩
  rw [hl] at h
  simp only at h
  subst h
  cases hf : env.fetch imgs <;> simp [hf]

theorem captureLoop_all (env : Env) (fs : Nat → String)
    (hcap : ∀ i, i < 5 → encodedFrame env i = some (fs i)) :
    (captureLoop env 5 0 []).2 = some ((List.range 5).map fs) := by
  have h := captureLoop_ok env fs 5 0 [] (by intro j hj; simpa using hcap j hj)
  rw [h]
  simp [List.range_eq_range']

/-- A session whose `try` block runs quiet effects `q` and then `t`: the state
`a` reached after `q` still has the busy flag set and no timer registered, and
the rest of the handler runs from there. -/
theorem session_split (ext : Nat → List External) (s : AppState) (env : Env)
    (q t : List Effect) (threw : Bool)
    (hcam : s.cameraRef = true) (hidle : s.isScanning = false)
    (htry : tryBlock env = (q ++ t, threw))
    (hq : ∀ e ∈ q, isQuiet e = true) :
    ∃ a n,
      session ext s env =
        run ext n { app := a, timers := [] }
          (t ++ (if threw then catchBlock else []) ++ [Effect.setIsScanning false] ++ resetPart s)
      ∧ a.isScanning = true ∧ a.frames = []
      ∧ (a.status = Status.scanning ∨ a.status = Status.idle)
      ∧ (a.userName = s.userName ∨ a.userName = "")
      ∧ (ext = noEvents → a.userName = s.userName) := by
  have hrun := run_quiet ext q hq 4 { app := started s, timers := [] }
  obtain ⟨htim, hund⟩ := hrun
  obtain ⟨h1, h2, _, h4, h5⟩ := hund
  refine ⟨(run ext 4 { app := started s, timers := [] } q).app, 4 + q.length,
    ?_, h1, h2, ?_, h5, ?_⟩
  · unfold session
    rw [captureFrames_eq s env hcam hidle, htry]
    simp only [List.append_assoc, List.cons_append, List.nil_append]
    simp only [run, commit, applyEffect, isAwait, statusEffect, Bool.false_eq_true, if_false,
      reduceCtorEq, ite_self, List.append_nil]
    rw [run_append]
    congr 1
    rcases hw : run ext 4 { app := started s, timers := [] } q with ⟨a, tm⟩
    rw [hw] at htim
    simp only at htim
    subst htim
    exact hw
  · simpa [started] using h4
  · intro hext
    subst hext
    exact run_noEvents_userName q hq 4 _

theorem quiet_loop (env : Env) : ∀ e ∈ (captureLoop env 5 0 []).1, isQuiet e = true :=
  fun e he => isQuiet_of_isLoopEffect e (captureLoop_trace env 5 0 [] e he)

/-- A session in which all five frames are captured and the response decodes to
`r`: the handler reaches the branch on `r` with the busy flag set and no timer
registered. -/
theorem session_decoded (ext : Nat → List External) (s : AppState) (env : Env)
    (fs : Nat → String) (r : VerifyResult)
    (hcam : s.cameraRef = true) (hidle : s.isScanning = false)
    (hcap : ∀ i, i < 5 → encodedFrame env i = some (fs i))
    (hfetch : env.fetch ((List.range 5).map fs) = FetchOutcome.decoded r) :
    ∃ a n,
      session ext s env =
        run ext n { app := a, timers := [] }
          ((classify r).1 ++ (if (classify r).2 then catchBlock else [])
            ++ [Effect.setIsScanning false] ++ resetPart s)
      ∧ a.isScanning = true ∧ a.frames = []
      ∧ (a.status = Status.scanning ∨ a.status = Status.idle)
      ∧ (a.userName = s.userName ∨ a.userName = "")
      ∧ (ext = noEvents → a.userName = s.userName) := by
  have htry := tryBlock_ok env _ (captureLoop_all env fs hcap)
  rw [hfetch] at htry
  simp only at htry
  refine session_split ext s env _ _ _ hcam hidle htry ?_
  intro e he
  rcases List.mem_append.1 he with h | h
  · exact quiet_loop env e h
  · simp at h
    rcases h with h | h | h <;> subst h <;> rfl

/-- A session whose `try` block throws after quiet effects only: the handler
reaches the `catch` block with the busy flag set and no timer registered. -/
theorem session_thrown (ext : Nat → List External) (s : AppState) (env : Env)
    (q : List Effect)
    (hcam : s.cameraRef = true) (hidle : s.isScanning = false)
    (htry : tryBlock env = (q, true))
    (hq : ∀ e ∈ q, isQuiet e = true) :
    ∃ a n,
      session ext s env =
        run ext n { app := a, timers := [] }
          (catchBlock ++ [Effect.setIsScanning false] ++ resetPart s)
      ∧ a.isScanning = true ∧ a.frames = []
      ∧ (a.status = Status.scanning ∨ a.status = Status.idle)
      ∧ (a.userName = s.userName ∨ a.userName = "")
      ∧ (ext = noEvents → a.userName = s.userName) := by
  have h := session_split ext s env q [] true hcam hidle (by simpa using htry) hq
  simpa using h

theorem run_resetPart (ext : Nat → List External) (n : Nat) (w : World) (s : AppState) :
    run ext n w (resetPart s) = { w with timers := w.timers ++ resetTimers s } := by
  unfold resetPart resetTimers
  split <;> simp [run, commit, isAwait]

/-- The state and timers after the `catch` block and the end of the handler. -/
theorem run_catch (ext : Nat → List External) (n : Nat) (a : AppState) (s : AppState) :
    run ext n { app := a, timers := [] }
        (catchBlock ++ [Effect.setIsScanning false] ++ resetPart s) =
      { app := { a with status := Status.error, message := msgConnection, isScanning := false },
        timers := resetTimers s } := by
  rw [run_append, run_resetPart]
  simp [catchBlock, run, commit, applyEffect, isAwait, statusEffect]

theorem classify_verified (r : VerifyResult) (u : User)
    (hv : r.verified = true) (hl : r.liveness = true) (hu : r.user = some u) :
    classify r =
      ([Effect.setStatus Status.success, Effect.setUserName u.name,
        Effect.setMessage (msgGranted u.name r.confidence)], false) := by
  simp [classify, hv, hl, hu]

theorem classify_noUser (r : VerifyResult)
    (hv : r.verified = true) (hl : r.liveness = true) (hu : r.user = none) :
    classify r = ([Effect.setStatus Status.success], true) := by
  simp [classify, hv, hl, hu]

theorem classify_livenessFailed (r : VerifyResult) (hl : r.liveness = false) :
    classify r = ([Effect.setStatus Status.error, Effect.setMessage msgLivenessFailed], false) := by
  simp [classify, hl]

theorem classify_notRecognized (r : VerifyResult)
    (hv : r.verified = false) (hl : r.liveness = true) :
    classify r = ([Effect.setStatus Status.error, Effect.setMessage msgNotRecognized], false) := by
  simp [classify, hv, hl]

/-- The world a session ends in when the response is verified, live and carries
a user record `u`. -/
theorem session_verified (ext : Nat → List External) (s : AppState) (env : Env)
    (fs : Nat → String) (r : VerifyResult) (u : User)
    (hcam : s.cameraRef = true) (hidle : s.isScanning = false)
    (hcap : ∀ i, i < 5 → encodedFrame env i = some (fs i))
    (hfetch : env.fetch ((List.range 5).map fs) = FetchOutcome.decoded r)
    (hv : r.verified = true) (hl : r.liveness = true) (hu : r.user = some u) :
    ∃ a : AppState,
      session ext s env =
        { app := { a with status := Status.success, userName := u.name,
                          message := msgGranted u.name r.confidence, isScanning := false },
          timers := (TimerCallback.successReset, 4000) :: resetTimers s }
      ∧ a.frames = [] := by
  obtain ⟨a, n, hs, -, hfr, hst, -⟩ := session_decoded ext s env fs r hcam hidle hcap hfetch
  refine ⟨a, ?_, hfr⟩
  rw [hs, classify_verified r u hv hl hu, run_append, run_resetPart]
  rcases hst with h | h <;> simp [run, commit, applyEffect, isAwait, statusEffect, h]

/-- The world a session ends in when the response is verified and live and has
no user record. -/
theorem session_noUser (ext : Nat → List External) (s : AppState) (env : Env)
    (fs : Nat → String) (r : VerifyResult)
    (hcam : s.cameraRef = true) (hidle : s.isScanning = false)
    (hcap : ∀ i, i < 5 → encodedFrame env i = some (fs i))
    (hfetch : env.fetch ((List.range 5).map fs) = FetchOutcome.decoded r)
    (hv : r.verified = true) (hl : r.liveness = true) (hu : r.user = none) :
    ∃ a : AppState,
      session ext s env =
        { app := { a with status := Status.error, message := msgConnection,
                          isScanning := false },
          timers := (TimerCallback.successReset, 4000) :: resetTimers s }
      ∧ a.frames = []
      ∧ (a.userName = s.userName ∨ a.userName = "")
      ∧ (ext = noEvents → a.userName = s.userName) := by
  obtain ⟨a, n, hs, -, hfr, hst, hun, hne⟩ :=
    session_decoded ext s env fs r hcam hidle hcap hfetch
  refine ⟨a, ?_, hfr, hun, hne⟩
  rw [hs, classify_noUser r hv hl hu, run_append, run_resetPart]
  rcases hst with h | h <;>
    simp [catchBlock, run, commit, applyEffect, isAwait, statusEffect, h]

/-- The world a session ends in when the response fails liveness. -/
theorem session_livenessFailed (ext : Nat → List External) (s : AppState) (env : Env)
    (fs : Nat → String) (r : VerifyResult)
    (hcam : s.cameraRef = true) (hidle : s.isScanning = false)
    (hcap : ∀ i, i < 5 → encodedFrame env i = some (fs i))
    (hfetch : env.fetch ((List.range 5).map fs) = FetchOutcome.decoded r)
    (hl : r.liveness = false) :
    ∃ a : AppState,
      session ext s env =
        { app := { a with status := Status.error, message := msgLivenessFailed,
                          isScanning := false },
          timers := resetTimers s }
      ∧ a.frames = [] := by
  obtain ⟨a, n, hs, -, hfr, -⟩ := session_decoded ext s env fs r hcam hidle hcap hfetch
  refine ⟨a, ?_, hfr⟩
  rw [hs, classify_livenessFailed r hl, run_append, run_resetPart]
  simp [run, commit, applyEffect, isAwait, statusEffect]

/-- The world a session ends in when the response is live and not verified. -/
theorem session_notRecognized (ext : Nat → List External) (s : AppState) (env : Env)
    (fs : Nat → String) (r : VerifyResult)
    (hcam : s.cameraRef = true) (hidle : s.isScanning = false)
    (hcap : ∀ i, i < 5 → encodedFrame env i = some (fs i))
    (hfetch : env.fetch ((List.range 5).map fs) = FetchOutcome.decoded r)
    (hv : r.verified = false) (hl : r.liveness = true) :
    ∃ a : AppState,
      session ext s env =
        { app := { a with status := Status.error, message := msgNotRecognized,
                          isScanning := false },
          timers := resetTimers s }
      ∧ a.frames = [] := by
  obtain ⟨a, n, hs, -, hfr, -⟩ := session_decoded ext s env fs r hcam hidle hcap hfetch
  refine ⟨a, ?_, hfr⟩
  rw [hs, classify_notRecognized r hv hl, run_append, run_resetPart]
  simp [run, commit, applyEffect, isAwait, statusEffect]

/-- The world a session ends in when its `try` block throws after quiet effects
only. -/
theorem session_caught (ext : Nat → List External) (s : AppState) (env : Env)
    (q : List Effect)
    (hcam : s.cameraRef = true) (hidle : s.isScanning = false)
    (htry : tryBlock env = (q, true))
    (hq : ∀ e ∈ q, isQuiet e = true) :
    ∃ a : AppState,
      session ext s env =
        { app := { a with status := Status.error, message := msgConnection,
                          isScanning := false },
          timers := resetTimers s }
      ∧ a.frames = [] := by
  obtain ⟨a, n, hs, -, hfr, -⟩ := session_thrown ext s env q hcam hidle htry hq
  exact ⟨a, by rw [hs, run_catch], hfr⟩

theorem msgConnection_ne_notRecognized : msgConnection ≠ msgNotRecognized := by decide

theorem msgLivenessFailed_ne_notRecognized : msgLivenessFailed ≠ msgNotRecognized := by decide

theorem containsText_granted_name (name : String) (c : Nat) :
    containsText (msgGranted name c) name := by
  refine ⟨"✓ Acesso Liberado\n".data, ("\nConfiança: " ++ toString c ++ "%").data, ?_⟩
  simp [msgGranted, String.data_append, List.append_assoc]

theorem containsText_granted_confidence (name : String) (c : Nat) :
    containsText (msgGranted name c) (toString c) := by
  refine ⟨("✓ Acesso Liberado\n" ++ name ++ "\nConfiança: ").data, "%".data, ?_⟩
  simp [msgGranted, String.data_append, List.append_assoc]

theorem okEnv_captures (out : FetchOutcome) :
    ∀ i, i < 5 → encodedFrame (okEnv out) i = some (okFrames i) := by
  intro i _
  rfl

theorem fetchCalls_resetPart (s : AppState) : fetchCalls (resetPart s) = [] := by
  unfold resetPart
  split <;> rfl

theorem fetchCalls_catch (b : Bool) : fetchCalls (if b = true then catchBlock else []) = [] := by
  cases b <;> rfl

theorem fetchCalls_classify (r : VerifyResult) : fetchCalls (classify r).1 = [] := by
  unfold classify
  split
  · split <;> rfl
  · split <;> rfl

/-! ## The busy flag during a session -/

theorem run_keeps_busy (ext : Nat → List External) (es : List Effect)
    (h : ∀ e ∈ es, writesBusy e = false) (n : Nat) (w : World) :
    (run ext n w es).app.isScanning = w.app.isScanning := by
  induction es generalizing n w with
  | nil => rfl
  | cons e es ih =>
    have he : writesBusy e = false := h e (List.mem_cons_self _ _)
    have hes : ∀ e' ∈ es, writesBusy e' = false := fun e' h' => h e' (List.mem_cons_of_mem _ h')
    have hc : (commit w e).app.isScanning = w.app.isScanning := by
      cases e <;> simp [writesBusy] at he <;> simp [commit, applyEffect]
    simp only [run]
    split
    · rw [ih hes]
      exact (undisturbed_externals _ _).1.trans hc
    · rw [ih hes]
      exact hc

theorem writesBusy_of_isLoopEffect (e : Effect) (h : isLoopEffect e = true) :
    writesBusy e = false := by
  cases e <;> simp [isLoopEffect] at h <;> rfl

theorem classify_no_busy_write (r : VerifyResult) :
    ∀ e ∈ (classify r).1, writesBusy e = false := by
  intro e he
  unfold classify at he
  split at he
  · split at he
    · simp at he; subst he; rfl
    · simp at he
      rcases he with h | h | h <;> subst h <;> rfl
  · split at he
    · simp at he
      rcases he with h | h <;> subst h <;> rfl
    · simp at he
      rcases he with h | h <;> subst h <;> rfl

theorem tryBlock_no_busy_write (env : Env) :
    ∀ e ∈ (tryBlock env).1, writesBusy e = false := by
  have hloop : ∀ e ∈ (captureLoop env 5 0 []).1, writesBusy e = false :=
    fun e he => writesBusy_of_isLoopEffect e (captureLoop_trace env 5 0 [] e he)
  intro e he
  unfold tryBlock at he
  rcases hl : captureLoop env 5 0 [] with ⟨l, res⟩
  rw [hl] at he hloop
  cases res with
  | none => exact hloop e he
  | some imgs =>
    simp only at he hloop
    cases hf : env.fetch imgs with
    | rejected =>
      rw [hf] at he
      simp only [List.mem_append, List.mem_cons, List.mem_singleton, List.not_mem_nil,
        or_false] at he
      rcases he with h | h | h
      · exact hloop e h
      · subst h; rfl
      · subst h; rfl
    | undecodable =>
      rw [hf] at he
      simp only [List.mem_append, List.mem_cons, List.mem_singleton, List.not_mem_nil,
        or_false] at he
      rcases he with (h | h | h) | h
      · exact hloop e h
      · subst h; rfl
      · subst h; rfl
      · subst h; rfl
    | decoded r =>
      rw [hf] at he
      simp only [List.mem_append, List.mem_cons, List.mem_singleton, List.not_mem_nil,
        or_false] at he
      rcases he with ((h | h | h) | h) | h
      · exact hloop e h
      · subst h; rfl
      · subst h; rfl
      · subst h; rfl
      · exact classify_no_busy_write r e h

/-- From the first effect of a session up to the end of its `try` / `catch`
statement the busy flag is set, whatever else the event loop runs meanwhile:
after every non-empty initial part of lines 66-120 the state has `isScanning`
true. -/
theorem busy_until_released (ext : Nat → List External) (s : AppState) (env : Env)
    (p : List Effect)
    (hp : p <+: [Effect.setIsScanning true, Effect.setStatus Status.scanning,
        Effect.setMessage msgDetecting, Effect.setFrames []]
      ++ (tryBlock env).1 ++ (if (tryBlock env).2 then catchBlock else []))
    (hne : p ≠ []) :
    (run ext 0 { app := s, timers := [] } p).app.isScanning = true := by
  cases p with
  | nil => exact absurd rfl hne
  | cons e p' =>
    simp only [List.cons_append] at hp
    obtain ⟨he, hp'⟩ := List.cons_prefix_cons.1 hp
    subst he
    have hmem : ∀ e' ∈ p', writesBusy e' = false := by
      intro e' he'
      have hsub := hp'.subset he'
      simp only [List.mem_cons, List.mem_append, List.nil_append] at hsub
      rcases hsub with h | h | h | h | h
      · subst h; rfl
      · subst h; rfl
      · subst h; rfl
      · exact tryBlock_no_busy_write env e' h
      · split at h
        · simp [catchBlock] at h
          rcases h with h | h | h <;> subst h <;> rfl
        · simp at h
    simp only [run, isAwait, Bool.false_eq_true, if_false]
    rw [run_keeps_busy ext p' hmem]
    rfl

/-- Whether a session that ends in `error` by a failed capture, a failed
transport, a failed liveness check or a missing match registers the 3000 ms
reset is decided by the `status` captured at the trigger alone. -/
theorem failure_reset_iff_not_triggered_from_success (s : AppState) :
    (TimerCallback.failureReset, 3000) ∈ resetTimers s ↔ s.status ≠ Status.success := by
  unfold resetTimers
  split <;> simp_all

/-! ## The claims -/

/-- C8: for every response with `verified` and `liveness` both true that carries
`user.name` and `confidence`, a session in which the five frames were captured
ends with `status` `success`, `userName` equal to `user.name`, and a message
that contains both the user's name and the confidence value. -/
theorem verified_reaches_success (ext : Nat → List External) (s : AppState) (env : Env)
    (fs : Nat → String) (r : VerifyResult) (u : User)
    (hcam : s.cameraRef = true) (hidle : s.isScanning = false)
    (hcap : ∀ i, i < 5 → encodedFrame env i = some (fs i))
    (hfetch : env.fetch ((List.range 5).map fs) = FetchOutcome.decoded r)
    (hv : r.verified = true) (hl : r.liveness = true) (hu : r.user = some u) :
    (session ext s env).app.status = Status.success
    ∧ (session ext s env).app.userName = u.name
    ∧ containsText (session ext s env).app.message u.name
    ∧ containsText (session ext s env).app.message (toString r.confidence) := by
  obtain ⟨a, hs, -⟩ := session_verified ext s env fs r u hcam hidle hcap hfetch hv hl hu
  rw [hs]
  exact ⟨rfl, rfl, containsText_granted_name _ _, containsText_granted_confidence _ _⟩

/-- C8, at the response of the spec's example: the session ends in `success`
with `userName` "Ana" and a message containing "Ana" and "92". -/
theorem verified_reaches_success_witness :
    (session noEvents readyState (okEnv (FetchOutcome.decoded anaResult))).app.status
        = Status.success
    ∧ (session noEvents readyState (okEnv (FetchOutcome.decoded anaResult))).app.userName = "Ana"
    ∧ containsText
        (session noEvents readyState (okEnv (FetchOutcome.decoded anaResult))).app.message "Ana"
    ∧ containsText
        (session noEvents readyState (okEnv (FetchOutcome.decoded anaResult))).app.message "92" :=
  verified_reaches_success noEvents readyState (okEnv (FetchOutcome.decoded anaResult))
    okFrames anaResult { name := "Ana" } rfl rfl (okEnv_captures _) rfl rfl rfl rfl

/-- C1, as the code has it: for every decoded response with boolean flags, a
session in which the five frames were captured ends with `status` `success`
exactly when `verified` and `liveness` are both true and the response carries a
user record; with `status` `error` and the liveness message whenever `liveness`
is false, whatever `verified` is; and with `status` `error` and the
not-recognized message exactly when `liveness` is true and `verified` is
false. -/
theorem classification_of_response (ext : Nat → List External) (s : AppState) (env : Env)
    (fs : Nat → String) (r : VerifyResult)
    (hcam : s.cameraRef = true) (hidle : s.isScanning = false)
    (hcap : ∀ i, i < 5 → encodedFrame env i = some (fs i))
    (hfetch : env.fetch ((List.range 5).map fs) = FetchOutcome.decoded r) :
    ((session ext s env).app.status = Status.success ↔
        (r.verified = true ∧ r.liveness = true ∧ r.user ≠ none))
    ∧ (r.liveness = false →
        (session ext s env).app.status = Status.error
        ∧ (session ext s env).app.message = msgLivenessFailed)
    ∧ (((session ext s env).app.status = Status.error
          ∧ (session ext s env).app.message = msgNotRecognized) ↔
        (r.liveness = true ∧ r.verified = false)) := by
  cases hl : r.liveness with
  | false =>
    obtain ⟨a, hs, -⟩ := session_livenessFailed ext s env fs r hcam hidle hcap hfetch hl
    rw [hs]
    simp [msgLivenessFailed_ne_notRecognized]
  | true =>
    cases hv : r.verified with
    | false =>
      obtain ⟨a, hs, -⟩ := session_notRecognized ext s env fs r hcam hidle hcap hfetch hv hl
      rw [hs]
      simp
    | true =>
      cases hu : r.user with
      | none =>
        obtain ⟨a, hs, -⟩ := session_noUser ext s env fs r hcam hidle hcap hfetch hv hl hu
        rw [hs]
        simp [msgConnection_ne_notRecognized]
      | some u =>
        obtain ⟨a, hs, -⟩ := session_verified ext s env fs r u hcam hidle hcap hfetch hv hl hu
        rw [hs]
        simp

/-- C1, at the response `{verified: true, liveness: false}`: the session ends
with `status` `error` and the liveness message, not the not-recognized one. -/
theorem classification_of_response_witness :
    (session noEvents readyState
        (okEnv (FetchOutcome.decoded
          { verified := true, liveness := false, confidence := 0, user := none }))).app.status
      = Status.error
    ∧ (session noEvents readyState
        (okEnv (FetchOutcome.decoded
          { verified := true, liveness := false, confidence := 0, user := none }))).app.message
      = msgLivenessFailed :=
  (classification_of_response noEvents readyState
    (okEnv (FetchOutcome.decoded
      { verified := true, liveness := false, confidence := 0, user := none }))
    okFrames { verified := true, liveness := false, confidence := 0, user := none }
    rfl rfl (okEnv_captures _) rfl).2.1 rfl

/-- C1 as stated fails: a decoded response with `verified` and `liveness` both
true and no user record ends the session with `status` `error`, not
`success`. -/
theorem classification_counterexample :
    noUserResult.verified = true ∧ noUserResult.liveness = true
    ∧ (session noEvents readyState (okEnv (FetchOutcome.decoded noUserResult))).app.status
        = Status.error
    ∧ ¬ ((session noEvents readyState (okEnv (FetchOutcome.decoded noUserResult))).app.status
          = Status.success ↔
        (noUserResult.verified = true ∧ noUserResult.liveness = true)) := by
  decide

/-- C9: when the transport call fails (`fetch` rejects, or the body does not
decode), the exception is caught inside `captureFrames`: the `try` block throws,
and the session still runs to its end with `status` `error`, the generic
connection message, and the busy flag released. -/
theorem transport_failure_is_caught (ext : Nat → List External) (s : AppState) (env : Env)
    (fs : Nat → String)
    (hcam : s.cameraRef = true) (hidle : s.isScanning = false)
    (hcap : ∀ i, i < 5 → encodedFrame env i = some (fs i))
    (hfail : env.fetch ((List.range 5).map fs) = FetchOutcome.rejected
      ∨ env.fetch ((List.range 5).map fs) = FetchOutcome.undecodable) :
    (tryBlock env).2 = true
    ∧ (session ext s env).app.status = Status.error
    ∧ (session ext s env).app.message = msgConnection
    ∧ (session ext s env).app.isScanning = false := by
  have htry := tryBlock_ok env _ (captureLoop_all env fs hcap)
  rcases hfail with hf | hf
  · rw [hf] at htry
    simp only at htry
    obtain ⟨a, hs, -⟩ := session_caught ext s env _ hcam hidle htry (by
      intro e he
      rcases List.mem_append.1 he with h | h
      · exact quiet_loop env e h
      · simp at h
        rcases h with h | h <;> subst h <;> rfl)
    rw [hs, htry]
    exact ⟨rfl, rfl, rfl, rfl⟩
  · rw [hf] at htry
    simp only at htry
    obtain ⟨a, hs, -⟩ := session_caught ext s env _ hcam hidle htry (by
      intro e he
      rcases List.mem_append.1 he with h | h
      · exact quiet_loop env e h
      · simp at h
        rcases h with h | h | h <;> subst h <;> rfl)
    rw [hs, htry]
    exact ⟨rfl, rfl, rfl, rfl⟩

/-- C9, at a connection that is refused: the session from the ready state ends
with `status` `error`, the connection message and the busy flag released. -/
theorem transport_failure_is_caught_witness :
    (tryBlock (okEnv FetchOutcome.rejected)).2 = true
    ∧ (session noEvents readyState (okEnv FetchOutcome.rejected)).app.status = Status.error
    ∧ (session noEvents readyState (okEnv FetchOutcome.rejected)).app.message = msgConnection
    ∧ (session noEvents readyState (okEnv FetchOutcome.rejected)).app.isScanning = false :=
  transport_failure_is_caught noEvents readyState (okEnv FetchOutcome.rejected) okFrames
    rfl rfl (okEnv_captures _) (Or.inl rfl)

/-- C5: if taking or encoding the frame of step `k` fails, for `1 ≤ k ≤ 5`, the
frames before it having been captured, then `fetch` is never called (so no frame
is submitted) and the session ends with `status` `error`, the generic
connection message, and the busy flag released. -/
theorem capture_failure_sends_nothing (ext : Nat → List External) (s : AppState) (env : Env)
    (fs : Nat → String) (k : Nat)
    (hcam : s.cameraRef = true) (hidle : s.isScanning = false)
    (hk1 : 1 ≤ k) (hk5 : k ≤ 5)
    (hok : ∀ i, i + 1 < k → encodedFrame env i = some (fs i))
    (hfail : encodedFrame env (k - 1) = none) :
    fetchCalls (captureFrames s env) = []
    ∧ (session ext s env).app.status = Status.error
    ∧ (session ext s env).app.message = msgConnection
    ∧ (session ext s env).app.isScanning = false := by
  have hloop : (captureLoop env 5 0 []).2 = none :=
    captureLoop_fail env fs 5 0 (k - 1) [] (by omega)
      (by intro j hj; simpa using hok j (by omega))
      (by simpa using hfail)
  have htry := tryBlock_fail env hloop
  obtain ⟨a, hs, -⟩ := session_caught ext s env _ hcam hidle htry (quiet_loop env)
  refine ⟨?_, by rw [hs], by rw [hs], by rw [hs]⟩
  rw [captureFrames_eq s env hcam hidle, htry]
  have hl := fetchCalls_loop _ (captureLoop_trace env 5 0 [])
  simp [fetchCalls_append, hl, fetchCalls, fetchCalls_resetPart, fetchCalls_catch]

/-- C5, at a camera that fails at step 3: no request is sent and the session
ends in the generic error. -/
theorem capture_failure_sends_nothing_witness :
    fetchCalls (captureFrames readyState (failingEnv 2)) = []
    ∧ (session noEvents readyState (failingEnv 2)).app.status = Status.error
    ∧ (session noEvents readyState (failingEnv 2)).app.message = msgConnection
    ∧ (session noEvents readyState (failingEnv 2)).app.isScanning = false :=
  capture_failure_sends_nothing noEvents readyState (failingEnv 2) okFrames 3
    rfl rfl (by decide) (by decide)
    (by intro i hi
        have h : i = 0 ∨ i = 1 := by omega
        rcases h with h | h <;> subst h <;> rfl)
    rfl

/-- C6: when all five frames are taken and encoded, `captureFrames` calls
`fetch` exactly once, on the verify URL, and the `images` list of that request
has exactly five entries, the payloads of the frames in the order they were
acquired. -/
theorem request_has_five_frames_in_order (s : AppState) (env : Env) (fs : Nat → String)
    (hcam : s.cameraRef = true) (hidle : s.isScanning = false)
    (hcap : ∀ i, i < 5 → encodedFrame env i = some (fs i)) :
    fetchCalls (captureFrames s env) = [(verifyUrl, [fs 0, fs 1, fs 2, fs 3, fs 4])] := by
  have htry := tryBlock_ok env _ (captureLoop_all env fs hcap)
  have hl := fetchCalls_loop _ (captureLoop_trace env 5 0 [])
  have hr : (List.range 5).map fs = [fs 0, fs 1, fs 2, fs 3, fs 4] := by
    simp [List.range_succ]
  rw [hr] at htry
  have key : fetchCalls (tryBlock env).1 = [(verifyUrl, [fs 0, fs 1, fs 2, fs 3, fs 4])] := by
    rw [htry]
    cases env.fetch [fs 0, fs 1, fs 2, fs 3, fs 4] <;>
      simp [fetchCalls_append, hl, fetchCalls, fetchCalls_classify]
  rw [captureFrames_eq s env hcam hidle]
  simp [fetchCalls_append, key, fetchCalls, fetchCalls_resetPart, fetchCalls_catch]

/-- C6, at the sample camera: one request, carrying "f0" to "f4" in order. -/
theorem request_has_five_frames_in_order_witness :
    fetchCalls (captureFrames readyState (okEnv (FetchOutcome.decoded anaResult)))
      = [(verifyUrl, ["f0", "f1", "f2", "f3", "f4"])] :=
  request_has_five_frames_in_order readyState (okEnv (FetchOutcome.decoded anaResult))
    okFrames rfl rfl (okEnv_captures _)

/-- C2 as stated fails: with the camera mounted and no face in view, a call of
`captureFrames` starts the capture and changes `status` and `message`; the
handler does not read `faceDetected`. -/
theorem captureFrames_ignores_faceDetected :
    noFaceState.faceDetected = false
    ∧ Effect.takePictureAsync 0 ∈
        captureFrames noFaceState (okEnv (FetchOutcome.decoded notRecognizedResult))
    ∧ (session noEvents noFaceState
        (okEnv (FetchOutcome.decoded notRecognizedResult))).app.status ≠ noFaceState.status
    ∧ (session noEvents noFaceState
        (okEnv (FetchOutcome.decoded notRecognizedResult))).app.message ≠ noFaceState.message := by
  decide

/-- C2, as the code has it: a press on the scan button while `faceDetected` is
false does not call `captureFrames`: it performs no effect, starts no capture,
registers no timer, and leaves the whole state as it was. -/
theorem press_without_face_is_ignored (ext : Nat → List External) (s : AppState) (env : Env)
    (hface : s.faceDetected = false) :
    pressScanButton s env = [] ∧ press ext s env = { app := s, timers := [] } := by
  have h : pressScanButton s env = [] := by simp [pressScanButton, hface]
  exact ⟨h, by simp [press, h, run]⟩

/-- C2, on the idle screen with the camera mounted and no face in view. -/
theorem press_without_face_is_ignored_witness :
    pressScanButton noFaceState (okEnv (FetchOutcome.decoded anaResult)) = []
    ∧ press noEvents noFaceState (okEnv (FetchOutcome.decoded anaResult))
        = { app := noFaceState, timers := [] } :=
  press_without_face_is_ignored noEvents noFaceState (okEnv (FetchOutcome.decoded anaResult)) rfl

/-- C3 as stated fails: in the state a failed session leaves (`status` `error`,
reset timer pending) and in the state a successful one leaves (`status`
`success`), the busy flag is already released, and a press on the scan button
starts a new capture. -/
theorem press_in_display_window_starts_burst :
    afterFailure.status = Status.error
    ∧ Effect.takePictureAsync 0 ∈
        pressScanButton afterFailure (okEnv (FetchOutcome.decoded anaResult))
    ∧ (press noEvents afterFailure (okEnv (FetchOutcome.decoded anaResult))).app ≠ afterFailure
    ∧ afterSuccess.status = Status.success
    ∧ Effect.takePictureAsync 0 ∈
        pressScanButton afterSuccess (okEnv (FetchOutcome.decoded notRecognizedResult))
    ∧ (press noEvents afterSuccess (okEnv (FetchOutcome.decoded notRecognizedResult))).app
        ≠ afterSuccess := by
  decide

/-- C3, as the code has it: in every state in which the busy flag `isScanning`
is set, a trigger is rejected: neither the button press nor `captureFrames`
performs any effect, so no capture starts and the state is unchanged. -/
theorem trigger_while_busy_is_rejected (ext : Nat → List External) (s : AppState) (env : Env)
    (hbusy : s.isScanning = true) :
    pressScanButton s env = [] ∧ captureFrames s env = []
    ∧ press ext s env = { app := s, timers := [] }
    ∧ session ext s env = { app := s, timers := [] } := by
  have h1 : pressScanButton s env = [] := by simp [pressScanButton, hbusy]
  have h2 : captureFrames s env = [] := by simp [captureFrames, hbusy]
  exact ⟨h1, h2, by simp [press, h1, run], by simp [session, h2, run]⟩

/-- C3, in the state right after lines 66-69 of a running session. -/
theorem trigger_while_busy_is_rejected_witness :
    pressScanButton (started readyState) (okEnv (FetchOutcome.decoded anaResult)) = []
    ∧ captureFrames (started readyState) (okEnv (FetchOutcome.decoded anaResult)) = []
    ∧ press noEvents (started readyState) (okEnv (FetchOutcome.decoded anaResult))
        = { app := started readyState, timers := [] }
    ∧ session noEvents (started readyState) (okEnv (FetchOutcome.decoded anaResult))
        = { app := started readyState, timers := [] } :=
  trigger_while_busy_is_rejected noEvents (started readyState)
    (okEnv (FetchOutcome.decoded anaResult)) rfl

theorem resetTimers_mem (s : AppState) (cb : TimerCallback) (ms : Nat)
    (h : (cb, ms) ∈ resetTimers s) : cb = TimerCallback.failureReset ∧ ms = 3000 := by
  unfold resetTimers at h
  split at h <;> simp at h
  exact h

/-- Every session that enters `success` registers the success-reset callback
with a delay of 4000 ms and with no other delay; the timers it registers are
that one and, when the `status` captured at the trigger was not `success`, the
3000 ms failure reset as well. -/
theorem success_timers (ext : Nat → List External) (s : AppState) (env : Env)
    (fs : Nat → String) (r : VerifyResult) (u : User)
    (hcam : s.cameraRef = true) (hidle : s.isScanning = false)
    (hcap : ∀ i, i < 5 → encodedFrame env i = some (fs i))
    (hfetch : env.fetch ((List.range 5).map fs) = FetchOutcome.decoded r)
    (hv : r.verified = true) (hl : r.liveness = true) (hu : r.user = some u) :
    (session ext s env).app.status = Status.success
    ∧ (session ext s env).timers = (TimerCallback.successReset, 4000) :: resetTimers s
    ∧ (∀ ms, (TimerCallback.successReset, ms) ∈ (session ext s env).timers → ms = 4000)
    ∧ ((TimerCallback.failureReset, 3000) ∈ (session ext s env).timers ↔
        s.status ≠ Status.success) := by
  obtain ⟨a, hs, -⟩ := session_verified ext s env fs r u hcam hidle hcap hfetch hv hl hu
  rw [hs]
  refine ⟨rfl, rfl, ?_, ?_⟩
  · intro ms hms
    rcases List.mem_cons.1 hms with h | h
    · exact (Prod.mk.inj h).2
    · exact absurd (resetTimers_mem s _ _ h).1 (by decide)
  · simp only [List.mem_cons, Prod.mk.injEq, reduceCtorEq, false_and, false_or]
    exact failure_reset_iff_not_triggered_from_success s

/-- C4, at a session triggered from the idle screen and answered with the
spec's example: it ends in `success` and registers two timers, the 4000 ms
success reset and, because line 124 reads the `status` captured at the trigger
(`idle`), the 3000 ms failure reset too.  The success screen is still up after
2999 ms; after 3000 ms the failure reset has set `status` to `idle` and cleared
the message, with `userName` still "Ana"; the 4000 ms callback then clears
`userName` only.  When the session is instead triggered from the success window
(the timers left by the first session coming due during it), only the 4000 ms
reset is registered, and after it has run the message is still displayed. -/
theorem success_screen_is_reset_early :
    readyState.status = Status.idle
    ∧ (press noEvents readyState (okEnv (FetchOutcome.decoded anaResult))).app.status
        = Status.success
    ∧ (press noEvents readyState (okEnv (FetchOutcome.decoded anaResult))).timers
        = [(TimerCallback.successReset, 4000), (TimerCallback.failureReset, 3000)]
    ∧ (stateAfter (press noEvents readyState (okEnv (FetchOutcome.decoded anaResult)))
        2999).status = Status.success
    ∧ (stateAfter (press noEvents readyState (okEnv (FetchOutcome.decoded anaResult)))
        3000).status = Status.idle
    ∧ (stateAfter (press noEvents readyState (okEnv (FetchOutcome.decoded anaResult)))
        3000).message = ""
    ∧ (stateAfter (press noEvents readyState (okEnv (FetchOutcome.decoded anaResult)))
        3000).userName = "Ana"
    ∧ (stateAfter (press noEvents readyState (okEnv (FetchOutcome.decoded anaResult)))
        4000).userName = ""
    ∧ callbackEffects TimerCallback.successReset
        = [Effect.setStatus Status.idle, Effect.setUserName ""]
    ∧ callbackEffects TimerCallback.failureReset
        = [Effect.setStatus Status.idle, Effect.setMessage ""]
    ∧ (press oldTimersDue afterSuccess (okEnv (FetchOutcome.decoded anaResult))).app.status
        = Status.success
    ∧ (press oldTimersDue afterSuccess (okEnv (FetchOutcome.decoded anaResult))).timers
        = [(TimerCallback.successReset, 4000)]
    ∧ (stateAfter (press oldTimersDue afterSuccess (okEnv (FetchOutcome.decoded anaResult)))
        4000).status = Status.idle
    ∧ (stateAfter (press oldTimersDue afterSuccess (okEnv (FetchOutcome.decoded anaResult)))
        4000).userName = ""
    ∧ (stateAfter (press oldTimersDue afterSuccess (okEnv (FetchOutcome.decoded anaResult)))
        4000).message = "✓ Acesso Liberado\nAna\nConfiança: 92%" := by
  decide

/-- C7, at a session triggered while the previous success is still displayed:
the response is "not recognized", the session ends with `status` `error` and
the not-recognized message, and it registers no timer at all, because line 124
reads the `status` captured at the trigger, which was `success`.  The same
holds when the two timers left by the first session come due during the second
one: then no timer is left to clear the message. -/
theorem failure_after_success_registers_no_reset :
    afterSuccess.status = Status.success
    ∧ afterSuccess.isScanning = false ∧ afterSuccess.faceDetected = true
    ∧ afterSuccess.cameraRef = true
    ∧ (press noEvents afterSuccess
        (okEnv (FetchOutcome.decoded notRecognizedResult))).app.status = Status.error
    ∧ (press noEvents afterSuccess
        (okEnv (FetchOutcome.decoded notRecognizedResult))).app.message = msgNotRecognized
    ∧ (press noEvents afterSuccess
        (okEnv (FetchOutcome.decoded notRecognizedResult))).timers = []
    ∧ (press oldTimersDue afterSuccess
        (okEnv (FetchOutcome.decoded notRecognizedResult))).app.status = Status.error
    ∧ (press oldTimersDue afterSuccess
        (okEnv (FetchOutcome.decoded notRecognizedResult))).app.message = msgNotRecognized
    ∧ (press oldTimersDue afterSuccess
        (okEnv (FetchOutcome.decoded notRecognizedResult))).timers = [] := by
  decide

/-- C10 as stated fails: a session triggered while the previous success is
still displayed, answered with both flags true and no user record, ends with
`status` `error` and the connection message, and `userName` still "Ana". -/
theorem missing_user_keeps_old_userName :
    afterSuccess.isScanning = false ∧ afterSuccess.faceDetected = true
    ∧ afterSuccess.cameraRef = true
    ∧ noUserResult.verified = true ∧ noUserResult.liveness = true ∧ noUserResult.user = none
    ∧ (press noEvents afterSuccess (okEnv (FetchOutcome.decoded noUserResult))).app.status
        = Status.error
    ∧ (press noEvents afterSuccess (okEnv (FetchOutcome.decoded noUserResult))).app.message
        = msgConnection
    ∧ (press noEvents afterSuccess (okEnv (FetchOutcome.decoded noUserResult))).app.userName
        = "Ana" := by
  decide

/-- C10, as the code has it: for every decoded response with `verified` and
`liveness` both true and no user record, `setStatus('success')` is called and
is followed at once by the `catch` block; the session calls `setUserName` at no
point; it ends with `status` `error` and the generic connection message; and
`userName` is the value it had at the trigger, or empty if a reset timer came
due meanwhile: so it is empty whenever it was empty at the trigger. -/
theorem missing_user_ends_in_error (ext : Nat → List External) (s : AppState) (env : Env)
    (fs : Nat → String) (r : VerifyResult)
    (hcam : s.cameraRef = true) (hidle : s.isScanning = false)
    (hcap : ∀ i, i < 5 → encodedFrame env i = some (fs i))
    (hfetch : env.fetch ((List.range 5).map fs) = FetchOutcome.decoded r)
    (hv : r.verified = true) (hl : r.liveness = true) (hu : r.user = none) :
    ([Effect.setStatus Status.success] ++ catchBlock) <:+: captureFrames s env
    ∧ (∀ n, Effect.setUserName n ∉ captureFrames s env)
    ∧ (session ext s env).app.status = Status.error
    ∧ (session ext s env).app.message = msgConnection
    ∧ ((session ext s env).app.userName = s.userName ∨ (session ext s env).app.userName = "")
    ∧ (s.userName = "" → (session ext s env).app.userName = "")
    ∧ (ext = noEvents → (session ext s env).app.userName = s.userName) := by
  have htry := tryBlock_ok env _ (captureLoop_all env fs hcap)
  rw [hfetch] at htry
  simp only [classify_noUser r hv hl hu] at htry
  obtain ⟨a, hs, -, hun, hne⟩ := session_noUser ext s env fs r hcam hidle hcap hfetch hv hl hu
  refine ⟨?_, ?_, by rw [hs], by rw [hs], by rw [hs]; exact hun, ?_, by rw [hs]; exact hne⟩
  · rw [captureFrames_eq s env hcam hidle, htry]
    refine ⟨[Effect.setIsScanning true, Effect.setStatus Status.scanning,
        Effect.setMessage msgDetecting, Effect.setFrames []] ++ (captureLoop env 5 0 []).1
        ++ [Effect.setMessage msgVerifying, Effect.fetch verifyUrl ((List.range 5).map fs),
          Effect.responseJson],
      [Effect.setIsScanning false] ++ resetPart s, ?_⟩
    simp
  · intro n hmem
    rw [captureFrames_eq s env hcam hidle, htry] at hmem
    simp only [List.mem_append, List.mem_cons, List.mem_singleton, reduceCtorEq, if_true,
      catchBlock, List.not_mem_nil, or_false, false_or] at hmem
    rcases hmem with h | h
    · have := captureLoop_trace env 5 0 [] _ h
      simp [isLoopEffect] at this
    · unfold resetPart at h
      split at h <;> simp at h
  · intro hempty
    rw [hs]
    rcases hun with h | h
    · exact h.trans hempty
    · exact h

/-- C10, from the ready state, whose `userName` is empty: the session ends with
`status` `error`, the connection message and an empty `userName`. -/
theorem missing_user_ends_in_error_witness :
    (session noEvents readyState (okEnv (FetchOutcome.decoded noUserResult))).app.status
        = Status.error
    ∧ (session noEvents readyState (okEnv (FetchOutcome.decoded noUserResult))).app.message
        = msgConnection
    ∧ (session noEvents readyState (okEnv (FetchOutcome.decoded noUserResult))).app.userName
        = "" :=
  have h := missing_user_ends_in_error noEvents readyState
    (okEnv (FetchOutcome.decoded noUserResult)) okFrames noUserResult
    rfl rfl (okEnv_captures _) rfl rfl rfl rfl
  ⟨h.2.2.1, h.2.2.2.1, h.2.2.2.2.2.1 rfl⟩

end FaceAccess
